import Mathlib

/-!
# Client-side authentication token lifecycle — verification development

Shallow embedding of the authentication core of the repository:

* `TokenService` (src/core/services/tokenService.ts): JWT structural
  validation, expiry checks, remaining-lifetime computation, token storage.
* `AuthService` (src/core/services/authService.ts): login, logout, refresh
  (single-flight), `getValidToken`, `isAuthenticated`.
* `AxiosInterceptor` (src/core/services/axiosInterceptor.ts): the 401
  response handling with one retry and the refresh queue.

Modelling conventions:

* `localStorage` is modelled as an explicit `Storage` record threaded through
  every function that reads or writes it (the code treats storage as
  synchronous); branches where `localStorage` itself throws are out of the
  model (the code logs and continues, and no claim depends on them).
* The ambient host primitives `atob` + `JSON.parse` are modelled as an
  abstract field `DecodeEnv.atobJson`: applying it to the base64url-translated
  middle segment of a token stands for base64-decoding that segment and
  parsing it as JSON.  `none` models a decode or parse failure (or a parse
  producing `null`).  A parse producing a JSON value with no usable fields
  (for example a bare number) is modelled as a payload with every field
  `none`, which the code treats identically through its truthiness checks.
* JavaScript truthiness of payload fields (`!payload.exp` etc.) is modelled by
  `truthyStr` / `truthyInt`: `undefined`, the empty string and the number `0`
  are falsy.  Timestamps are modelled as integers (fractional JSON numbers are
  out of scope).
* `Date.now()` is a millisecond parameter `nowMs`; the code derives seconds
  with `Math.floor(Date.now() / 1000)`, modelled by `msToSec` (floor
  division).
* Network calls are suspension points whose outcomes are parameters
  (`NetResult`): `success d` models a resolved axios promise whose
  `response.data` is `d`, `failure s` models a rejected promise whose
  `error.response?.status` is `s` (`none` = no response, e.g. a timeout).
* `AppError(message, code, details)` from the source is modelled with its
  string `details` discriminant in the `kind` field; the branches whose
  `details` is a raw error object are given symbolic kind names.
-/

namespace AuthSpec

/-- Decoded JWT payload (`TokenPayload` in src/core/types/AuthTypes.ts).
Every field is an `Option` because a decoded JSON object may lack any of
them; `role` and `permissions` are never read by the verified code paths and
are omitted. -/
structure TokenPayload where
  userId : Option String
  email : Option String
  iat : Option Int
  exp : Option Int
  deriving Repr, DecidableEq

/-- JavaScript truthiness for an optional string field: `undefined` and `""`
are falsy. -/
def truthyStr : Option String → Bool
  | none => false
  | some s => s != ""

/-- JavaScript truthiness for an optional numeric field: `undefined` and `0`
are falsy. -/
def truthyInt : Option Int → Bool
  | none => false
  | some n => n != 0

/-- Host decoding primitive (see the module docstring): base64-decode a
(base64url-translated) segment and parse it as JSON. -/
structure DecodeEnv where
  atobJson : String → Option TokenPayload

/-- `AppError` (src/core/types/AppError.ts): `message`, `code`, and the string
`details` discriminant (here `kind`). -/
structure AppError where
  message : String
  code : String
  kind : String
  deriving Repr, DecidableEq

/-- The two token keys of `localStorage` owned by the token store. -/
structure Storage where
  access : Option String
  refresh : Option String
  deriving Repr, DecidableEq

/-- `TokenValidationResult` (src/core/types/AuthTypes.ts). -/
structure TokenValidationResult where
  isValid : Bool
  isExpired : Bool
  payload : Option TokenPayload
  error : Option String
  deriving Repr, DecidableEq

/-- `AuthTokens` (src/core/types/AuthTypes.ts). -/
structure AuthTokens where
  accessToken : String
  refreshToken : String
  deriving Repr, DecidableEq

/-- `Math.floor(ms / 1000)` on integers: floor division. -/
def msToSec (ms : Int) : Int := Int.fdiv ms 1000

/-- Projection used in theorem statements: the `details` discriminant of a
failed operation, `none` on success. -/
def errKind {α : Type} : Except AppError α → Option String
  | .error e => some e.kind
  | .ok _ => none

/-- `true` exactly on the failure outcome of a fallible operation. -/
def isErr {α : Type} : Except AppError α → Bool
  | .error _ => true
  | .ok _ => false

/-! ## Error values (the `AppError` literals of the source) -/

def accessTokenNotFoundError : AppError :=
  ⟨"Token acces non trouve", "401", "access_token_not_found"⟩

def accessTokenInvalidFormatError : AppError :=
  ⟨"Format de token invalide", "401", "access_token_invalid"⟩

def accessTokenExpiredError : AppError :=
  ⟨"Token acces expire", "401", "access_token_expired"⟩

def refreshTokenNotFoundError : AppError :=
  ⟨"Token de refresh non trouve", "401", "refresh_token_not_found"⟩

def refreshTokenInvalidError : AppError :=
  ⟨"Token de refresh invalide", "401", "refresh_token_invalid"⟩

def invalidAccessTokenFormatError : AppError :=
  ⟨"Token acces invalide lors du stockage", "400", "invalid_access_token_format"⟩

def invalidRefreshTokenFormatError : AppError :=
  ⟨"Token de refresh invalide lors du stockage", "400", "invalid_refresh_token_format"⟩

def tokenDecodeFailedError : AppError :=
  ⟨"Token invalide - impossible de decoder", "400", "token_decode_failed"⟩

def tokenMissingFieldsError : AppError :=
  ⟨"Token invalide - champs manquants", "400", "token_missing_fields"⟩

def refreshFailedError : AppError :=
  ⟨"Echec du renouvellement du token", "401", "refresh_failed"⟩

def refreshExpiredError : AppError :=
  ⟨"Session expiree, veuillez vous reconnecter", "401", "refresh_expired"⟩

/-- `AppError("Erreur lors du renouvellement du token", "500", error)`: the
`details` field carries the raw error object, given a symbolic kind here. -/
def refreshNetworkError : AppError :=
  ⟨"Erreur lors du renouvellement du token", "500", "refresh_network_error"⟩

def authenticationRequiredError : AppError :=
  ⟨"Authentification requise", "401", "authentication_required"⟩

def missingCredentialsError : AppError :=
  ⟨"Email et mot de passe requis", "400", "missing_credentials"⟩

def invalidEmailFormatError : AppError :=
  ⟨"Format email invalide", "400", "invalid_email_format"⟩

def invalidCredentialsError : AppError :=
  ⟨"Email ou mot de passe incorrect", "401", "invalid_credentials"⟩

def tooManyAttemptsError : AppError :=
  ⟨"Trop de tentatives, reessayez plus tard", "429", "too_many_attempts"⟩

def invalidAuthResponseError : AppError :=
  ⟨"Reponse authentification invalide", "400", "invalid_auth_response"⟩

/-- `AppError("Erreur de connexion", "500", error)`: raw error details, given
a symbolic kind here. -/
def loginNetworkError : AppError :=
  ⟨"Erreur de connexion", "500", "login_network_error"⟩

/-! ## TokenService (src/core/services/tokenService.ts) -/

/-- The `-`/`_` → `+`/`/` translation applied to the middle JWT segment
before `atob` (`decodeJWTPayload`, lines 286-288). -/
def b64urlChar (c : Char) : Char :=
  if c = '-' then '+' else if c = '_' then '/' else c

/-- `decodeJWTPayload` (lines 278-294): split on `'.'`, require exactly three
parts, base64url-translate and decode the middle one, parse it as JSON.  Any
failure yields `none`. -/
def decodeJWTPayload (env : DecodeEnv) (token : String) : Option TokenPayload :=
  match token.toList.splitOn '.' with
  | [_, mid, _] => env.atobJson (String.mk (mid.map b64urlChar))
  | _ => none

/-- `isTokenValid` (lines 128-141): three dot-separated segments whose middle
segment decodes to a non-null JSON value. -/
def isTokenValid (env : DecodeEnv) (token : String) : Bool :=
  (decodeJWTPayload env token).isSome

/-- `isTokenExpired` (lines 146-158): a token with no decodable payload or a
falsy `exp` is expired; otherwise expired iff `exp < currentTime`. -/
def isTokenExpired (env : DecodeEnv) (nowSec : Int) (token : String) : Bool :=
  match decodeJWTPayload env token with
  | none => true
  | some p =>
    match p.exp with
    | none => true
    | some e => if e = 0 then true else decide (e < nowSec)

/-- `getTokenTimeRemaining` (lines 247-261): `max 0 (exp - currentTime)`,
`0` when the payload or its `exp` is falsy. -/
def getTokenTimeRemaining (env : DecodeEnv) (nowSec : Int) (token : String) : Int :=
  match decodeJWTPayload env token with
  | none => 0
  | some p =>
    match p.exp with
    | none => 0
    | some e => if e = 0 then 0 else max 0 (e - nowSec)

/-- `getTokenPayload` (lines 163-179): decode, then require the truthy
`userId`, `email`, `exp`, `iat` fields. -/
def getTokenPayload (env : DecodeEnv) (token : String) : Except AppError TokenPayload :=
  match decodeJWTPayload env token with
  | none => .error tokenDecodeFailedError
  | some p =>
    if truthyStr p.userId && truthyStr p.email && truthyInt p.exp && truthyInt p.iat then
      .ok p
    else .error tokenMissingFieldsError

/-- `validateToken` (lines 184-221): structural validity (decodability) plus
the expiry flag; required payload fields are NOT checked here. -/
def validateToken (env : DecodeEnv) (nowSec : Int) (token : String) : TokenValidationResult :=
  if isTokenValid env token = false then
    ⟨false, false, none, some "Format de token invalide"⟩
  else
    match decodeJWTPayload env token with
    | none => ⟨false, false, none, some "Impossible de decoder le payload"⟩
    | some p =>
      let expired := isTokenExpired env nowSec token
      ⟨true, expired, some p, if expired then some "Token expire" else none⟩

/-- `clearTokens` (lines 266-273): remove both keys unconditionally. -/
def clearTokens (_ : Storage) : Storage := ⟨none, none⟩

/-- `getAccessToken` (lines 38-66): missing → fail without touching storage;
structurally invalid or expired → purge both tokens, then fail; otherwise
return the stored token unchanged. -/
def getAccessToken (env : DecodeEnv) (nowSec : Int) (st : Storage) :
    Except AppError String × Storage :=
  match st.access with
  | none => (.error accessTokenNotFoundError, st)
  | some token =>
    let v := validateToken env nowSec token
    if v.isValid = false then
      (.error ⟨v.error.getD "Token acces invalide", "401", "access_token_invalid"⟩,
        clearTokens st)
    else if v.isExpired then
      (.error accessTokenExpiredError, clearTokens st)
    else
      (.ok token, st)

/-- `getRefreshToken` (lines 71-89): missing → fail without touching storage;
structurally invalid → purge both tokens, then fail. -/
def getRefreshToken (env : DecodeEnv) (st : Storage) :
    Except AppError String × Storage :=
  match st.refresh with
  | none => (.error refreshTokenNotFoundError, st)
  | some token =>
    if isTokenValid env token = false then
      (.error refreshTokenInvalidError, clearTokens st)
    else (.ok token, st)

/-- `setTokens` (lines 94-123): reject the pair if the access token fails
`validateToken`'s structural check (expiry is NOT checked) or the refresh
token fails `isTokenValid`; otherwise store both. -/
def setTokens (env : DecodeEnv) (nowSec : Int) (accessToken refreshToken : String)
    (st : Storage) : Except AppError Bool × Storage :=
  if (validateToken env nowSec accessToken).isValid = false then
    (.error invalidAccessTokenFormatError, st)
  else if isTokenValid env refreshToken = false then
    (.error invalidRefreshTokenFormatError, st)
  else (.ok true, ⟨some accessToken, some refreshToken⟩)

/-- `REFRESH_BUFFER_MINUTES * 60` (lines 24 and 235). -/
def REFRESH_BUFFER_SECONDS : Int := 5 * 60

/-- `shouldRefreshToken` (lines 226-242): read the access token through
`getAccessToken` (with its purging side effects); `false` on failure,
otherwise `timeRemaining <= 300 && timeRemaining > 0`. -/
def shouldRefreshToken (env : DecodeEnv) (nowSec : Int) (st : Storage) :
    Bool × Storage :=
  match getAccessToken env nowSec st with
  | (.error _, st2) => (false, st2)
  | (.ok token, st2) =>
    let timeRemaining := getTokenTimeRemaining env nowSec token
    (decide (timeRemaining ≤ REFRESH_BUFFER_SECONDS) && decide (0 < timeRemaining), st2)

/-! ## AuthService (src/core/services/authService.ts) -/

/-- The mutable fields of the `AuthService` singleton: the token store it
writes through `TokenService`, the refresh lock `refreshPromise` (here just
whether it is non-null; the waiter sharing is modelled by `RefreshSys`
below), and the renewal-check cache timestamp `lastTokenCheck` (ms). -/
structure AuthState where
  store : Storage
  refreshInFlight : Bool
  lastTokenCheck : Int
  deriving Repr, DecidableEq

/-- Outcome of one awaited axios `post`: `success d` is a resolved response
whose `response.data` is `d` (`none` models a missing body), `failure s` a
rejected promise carrying `error.response?.status = s`. -/
inductive NetResult (α : Type) where
  | success (data : Option α)
  | failure (status : Option Int)
  deriving Repr, DecidableEq

/-- Body of a token-issuing response (`/auth/login`, `/auth/refresh`): the
optional `accessToken` / `refreshToken` fields of `response.data`. -/
structure TokenRespData where
  accessToken : Option String
  refreshToken : Option String
  deriving Repr, DecidableEq

/-- `TOKEN_CHECK_INTERVAL` (line 109): 30 000 ms. -/
def TOKEN_CHECK_INTERVAL : Int := 30000

/-- `performRefresh` (lines 230-275): read the refresh token (failing fast
without clearing when it is absent; `getRefreshToken` itself clears when it
is present but invalid), call `/auth/refresh`, and on any subsequent failure
clear both tokens.  On success store the pair, keeping the previous refresh
token when the response carries no truthy new one, and stamp
`lastTokenCheck`. -/
def performRefresh (env : DecodeEnv) (nowSec nowMs : Int) (net : NetResult TokenRespData)
    (st : AuthState) : Except AppError AuthTokens × AuthState :=
  match getRefreshToken env st.store with
  | (.error e, store2) => (.error e, { st with store := store2 })
  | (.ok rt, store2) =>
    match net with
    | .failure status =>
      if status = some 401 then
        (.error refreshExpiredError, { st with store := clearTokens store2 })
      else
        (.error refreshNetworkError, { st with store := clearTokens store2 })
    | .success data =>
      match data with
      | none => (.error refreshFailedError, { st with store := clearTokens store2 })
      | some d =>
        if truthyStr d.accessToken = false then
          (.error refreshFailedError, { st with store := clearTokens store2 })
        else
          let newAccess := d.accessToken.getD ""
          let newRefresh := if truthyStr d.refreshToken then d.refreshToken.getD "" else rt
          match setTokens env nowSec newAccess newRefresh store2 with
          | (.error e, store3) => (.error e, { st with store := clearTokens store3 })
          | (.ok _, store3) =>
            (.ok ⟨newAccess, newRefresh⟩,
              { st with store := store3, lastTokenCheck := nowMs })

/-- `refreshToken` (lines 214-225), fresh-flight path: no refresh is already
in flight, so the promise is created, awaited, and reset to `null`.  The
in-flight sharing (callers arriving while `refreshPromise` is non-null get
the same promise) is modelled by `RefreshSys` below. -/
def refreshToken (env : DecodeEnv) (nowSec nowMs : Int) (net : NetResult TokenRespData)
    (st : AuthState) : Except AppError AuthTokens × AuthState :=
  let (r, st2) := performRefresh env nowSec nowMs net st
  (r, { st2 with refreshInFlight := false })

/-- Outcome of the best-effort `/auth/logout` call: resolved, or rejected
(network failure or timeout). -/
inductive LogoutNet where
  | success
  | failure
  deriving Repr, DecidableEq

/-- `logout` (lines 178-209): read the refresh token; when present, POST the
server-side invalidation, swallowing either outcome (inner catch, line 189);
then unconditionally clear the tokens, reset `refreshPromise` and
`lastTokenCheck`, and return success. -/
def logout (env : DecodeEnv) (net : LogoutNet) (st : AuthState) :
    Except AppError Bool × AuthState :=
  let (r, store2) := getRefreshToken env st.store
  let _serverOutcome : Bool :=
    match r, net with
    | .ok _, .success => true
    | .ok _, .failure => false
    | .error _, _ => false
  (.ok true, ⟨clearTokens store2, false, 0⟩)

/-- `isAuthenticated` (lines 313-316): whether `getAccessToken` succeeds
(with its purging side effects threaded). -/
def isAuthenticated (env : DecodeEnv) (nowSec : Int) (st : AuthState) : Bool × AuthState :=
  match getAccessToken env nowSec st.store with
  | (.ok _, store2) => (true, { st with store := store2 })
  | (.error _, store2) => (false, { st with store := store2 })

/-- Result of `getValidToken` plus instrumentation: `refreshCalls` counts how
many times the body invoked `refreshToken()` (step 3). -/
structure GetValidTokenOut where
  result : Except AppError String
  state : AuthState
  refreshCalls : Nat

/-- Steps 2-4 of `getValidToken` (lines 290-307): full token check (stamping
`lastTokenCheck` on success), then the `shouldRefreshToken()` guard and the
refresh attempt, then the `authentication_required` failure. -/
def getValidTokenStep2 (env : DecodeEnv) (nowMs : Int) (net : NetResult TokenRespData)
    (st1 : AuthState) : GetValidTokenOut :=
  match getAccessToken env (msToSec nowMs) st1.store with
  | (.ok t, s) => ⟨.ok t, { st1 with store := s, lastTokenCheck := nowMs }, 0⟩
  | (.error _, s) =>
    match shouldRefreshToken env (msToSec nowMs) s with
    | (true, s3) =>
      match refreshToken env (msToSec nowMs) nowMs net { st1 with store := s3 } with
      | (.ok toks, st4) => ⟨.ok toks.accessToken, st4, 1⟩
      | (.error _, st4) => ⟨.error authenticationRequiredError, st4, 1⟩
    | (false, s3) => ⟨.error authenticationRequiredError, { st1 with store := s3 }, 0⟩

/-- `getValidToken` (lines 280-308).  Step 1 (lines 282-288): within 30 s of
the last confirmed check, return a successful `getAccessToken` directly; a
failed cache-path `getAccessToken` still applies its purging side effects
before falling through to steps 2-4. -/
def getValidToken (env : DecodeEnv) (nowMs : Int) (net : NetResult TokenRespData)
    (st0 : AuthState) : GetValidTokenOut :=
  if nowMs - st0.lastTokenCheck < TOKEN_CHECK_INTERVAL then
    match getAccessToken env (msToSec nowMs) st0.store with
    | (.ok t, s) => ⟨.ok t, { st0 with store := s }, 0⟩
    | (.error _, s) => getValidTokenStep2 env nowMs net { st0 with store := s }
  else getValidTokenStep2 env nowMs net st0

/-- Subset of JavaScript `\s` relevant to the verified inputs (space, tab,
newline, carriage return; the full class also contains rarer code points). -/
def jsWhitespace (c : Char) : Bool :=
  c == ' ' || c == '\t' || c == '\n' || c == '\r'

/-- A character admissible in the `[^\s@]` class of the email regex. -/
def isEmailChar (c : Char) : Bool := !jsWhitespace c && c != '@'

/-- `isValidEmail` (lines 359-362), the regex
`/^[^\s@]+@[^\s@]+\.[^\s@]+$/` made explicit: the whole string contains
exactly one `@`; the local part is nonempty without whitespace; the domain
part has no whitespace and contains a `.` that is neither its first nor its
last character (the class `[^\s@]` admits further dots on both sides). -/
def isValidEmail (email : String) : Bool :=
  match email.toList.splitOn '@' with
  | [localPart, domain] =>
    !localPart.isEmpty && localPart.all isEmailChar &&
      domain.all isEmailChar && ((domain.drop 1).dropLast.contains '.')
  | _ => false

/-- JavaScript `String.prototype.trim` on the modelled whitespace subset. -/
def jsTrim (s : String) : String :=
  String.mk (((s.toList.dropWhile jsWhitespace).reverse.dropWhile jsWhitespace).reverse)

/-- JavaScript `String.prototype.toLowerCase` (ASCII-relevant part). -/
def jsToLower (s : String) : String :=
  String.mk (s.toList.map Char.toLower)

/-- Result of `login` plus instrumentation: `netCalls` counts `/auth/login`
POSTs and `sentEmail` records the email transmitted in the request body. -/
structure LoginOut where
  result : Except AppError AuthTokens
  state : AuthState
  netCalls : Nat
  sentEmail : Option String

/-- `login` (lines 123-173): reject falsy credentials, then reject an email
failing `isValidEmail` — both without a network call; note the format check
runs on the RAW email, while `trim().toLowerCase()` is applied only to the
transmitted body (line 137).  Then POST `/auth/login`, mapping 401/429/other
rejections, requiring truthy `accessToken` and `refreshToken` in the body,
storing the pair via `setTokens`, and stamping `lastTokenCheck`. -/
def login (env : DecodeEnv) (nowSec nowMs : Int) (net : NetResult TokenRespData)
    (email password : String) (st : AuthState) : LoginOut :=
  if email.toList.isEmpty || password.toList.isEmpty then
    ⟨.error missingCredentialsError, st, 0, none⟩
  else if isValidEmail email = false then
    ⟨.error invalidEmailFormatError, st, 0, none⟩
  else
    let sent := jsToLower (jsTrim email)
    match net with
    | .failure status =>
      if status = some 401 then ⟨.error invalidCredentialsError, st, 1, some sent⟩
      else if status = some 429 then ⟨.error tooManyAttemptsError, st, 1, some sent⟩
      else ⟨.error loginNetworkError, st, 1, some sent⟩
    | .success data =>
      match data with
      | none => ⟨.error invalidAuthResponseError, st, 1, some sent⟩
      | some d =>
        if (!truthyStr d.accessToken) || (!truthyStr d.refreshToken) then
          ⟨.error invalidAuthResponseError, st, 1, some sent⟩
        else
          let a := d.accessToken.getD ""
          let r := d.refreshToken.getD ""
          match setTokens env nowSec a r st.store with
          | (.error e, store2) => ⟨.error e, { st with store := store2 }, 1, some sent⟩
          | (.ok _, store2) =>
            ⟨.ok ⟨a, r⟩, { st with store := store2, lastTokenCheck := nowMs }, 1, some sent⟩

/-! ## AxiosInterceptor (src/core/services/axiosInterceptor.ts) -/

/-- The mutable fields of an axios request config read or written by the
response interceptor: its URL, the `_retry` marker, and the
`Authorization` header. -/
structure ReqConfig where
  url : String
  retry : Bool
  authHeader : Option String
  deriving Repr, DecidableEq

/-- `needle` occurs as a contiguous substring of `hay`
(JavaScript `String.prototype.includes`). -/
def hasSubstring : List Char → List Char → Bool
  | hay, needle =>
    match hay with
    | [] => needle.isEmpty
    | _ :: rest => needle.isPrefixOf hay || hasSubstring rest needle

/-- The fixed allow-list of auth endpoints (line 159). -/
def authRoutes : List String :=
  ["/auth/login", "/auth/refresh", "/auth/logout", "/auth/register"]

/-- `isAuthRoute` (lines 158-161): the URL contains one of the auth route
suffixes. -/
def isAuthRoute (url : String) : Bool :=
  authRoutes.any (fun r => hasSubstring url.toList r.toList)

/-- What the response-error interceptor does with a failed request. -/
inductive InterceptAction where
  | passthroughReject
  | teardownReject
  | enqueue
  | retryRequest (cfg : ReqConfig)
  deriving Repr, DecidableEq

/-- The response-error interceptor (lines 66-133) for one rejected response:
non-401 and auth-route errors pass through; a 401 on a request already
marked `_retry` forces `handleAuthenticationFailure` (logout + redirect,
modelled as `teardownReject`) with no further attempt; during an in-flight
refresh the request is enqueued on `failedQueue`; otherwise the request is
marked `_retry`, `refreshToken()` is awaited (its outcome is the
`refreshOutcome` parameter), and on success the original request is replayed
with the new bearer token while on failure the session is torn down.  The
returned `Bool` is the final `isRefreshing` flag (reset by the `finally`,
line 131). -/
def onResponseError (status : Option Int) (cfg : ReqConfig) (isRefreshing : Bool)
    (refreshOutcome : Except AppError AuthTokens) : InterceptAction × Bool :=
  if status ≠ some 401 then (.passthroughReject, isRefreshing)
  else if isAuthRoute cfg.url then (.passthroughReject, isRefreshing)
  else if cfg.retry then (.teardownReject, isRefreshing)
  else if isRefreshing then (.enqueue, isRefreshing)
  else
    match refreshOutcome with
    | .ok toks =>
      (.retryRequest
        { cfg with
            retry := true,
            authHeader := some ("Bearer " ++ toks.accessToken) },
        false)
    | .error _ => (.teardownReject, false)

/-- Drives one request whose every attempt the server answers with 401:
each recursion step is one sent attempt; a `retryRequest` action sends the
(marked) request again, all other actions stop.  Returns the number of
attempts actually sent and whether the session was torn down. -/
def driveRequest : Nat → ReqConfig → Bool → Except AppError AuthTokens → Nat × Bool
  | 0, _, _, _ => (0, false)
  | fuel + 1, cfg, isRefreshing, refreshOutcome =>
    match onResponseError (some 401) cfg isRefreshing refreshOutcome with
    | (.retryRequest cfg2, isR2) =>
      let out := driveRequest fuel cfg2 isR2 refreshOutcome
      (out.1 + 1, out.2)
    | (.teardownReject, _) => (1, true)
    | (.passthroughReject, _) => (1, false)
    | (.enqueue, _) => (1, false)

/-! ## Single-flight refresh lock

`refreshToken` (authService.ts lines 214-225) checks `this.refreshPromise`
and either joins the in-flight promise or creates the one network call;
`AxiosInterceptor` (lines 86-98, 143-153) keeps the analogous
`isRefreshing` flag with a FIFO `failedQueue` resolved by `processQueue`.
Under the single-threaded event loop the check-and-set runs atomically up to
the network suspension point, so an execution is a sequence of atomic events:
a caller arriving, or the in-flight network call completing. -/

/-- The settled value of the shared refresh promise. -/
inductive RefreshOutcome where
  | succeeded (tokens : AuthTokens)
  | failed (e : AppError)
  deriving Repr, DecidableEq

/-- State of the refresh lock: whether a refresh is in flight, the FIFO list
of callers awaiting its outcome, how many network refresh calls are
currently outstanding, how many were ever started, and the outcomes
delivered to callers. -/
structure RefreshSys where
  inFlight : Bool
  waiters : List Nat
  outstanding : Nat
  started : Nat
  resolved : List (Nat × RefreshOutcome)
  deriving Repr, DecidableEq

/-- Atomic events: `arrive c` is caller `c` invoking `refreshToken()` (or a
401 retry being queued), `complete o` is the in-flight network call settling
with outcome `o`. -/
inductive RefreshEv where
  | arrive (caller : Nat)
  | complete (o : RefreshOutcome)
  deriving Repr, DecidableEq

/-- One event: an arriving caller joins the queue when a refresh is in
flight, otherwise it starts the single network call and becomes the first
waiter; a completion resolves every waiter, in enqueue order, with the one
outcome, and resets the lock. -/
def stepRefresh (st : RefreshSys) (ev : RefreshEv) : RefreshSys :=
  match ev with
  | .arrive c =>
    if st.inFlight then { st with waiters := st.waiters ++ [c] }
    else
      { st with
          inFlight := true, waiters := [c],
          outstanding := st.outstanding + 1, started := st.started + 1 }
  | .complete o =>
    if st.inFlight then
      { st with
          inFlight := false, waiters := [],
          outstanding := st.outstanding - 1,
          resolved := st.resolved ++ st.waiters.map (fun c => (c, o)) }
    else st

/-- The empty lock (`refreshPromise = null`, empty queue). -/
def initRefreshSys : RefreshSys := ⟨false, [], 0, 0, []⟩

/-- Run a sequence of events from a given lock state. -/
def runRefreshFrom (st : RefreshSys) (evs : List RefreshEv) : RefreshSys :=
  evs.foldl stepRefresh st

/-- Run a sequence of events from the empty lock. -/
def runRefresh (evs : List RefreshEv) : RefreshSys :=
  runRefreshFrom initRefreshSys evs

/-! ## Concrete decode environment for witnesses

`sampleAtobJson` interprets a handful of concrete middle segments as fixed
payloads, standing for the host `atob` + `JSON.parse` on the corresponding
base64url text; everything else fails to decode. -/

def sampleAtobJson (s : String) : Option TokenPayload :=
  if s = "expPayload" then some ⟨some "user-1", some "user@example.com", some 1000, some 2000⟩
  else if s = "freshPayload" then
    some ⟨some "user-1", some "user@example.com", some 1000, some 999999999⟩
  else if s = "noClaimsPayload" then some ⟨none, none, none, some 999999999⟩
  else if s = "rtPayload" then some ⟨none, none, none, none⟩
  else if s = "b301Payload" then some ⟨some "user-1", some "user@example.com", some 1, some 1301⟩
  else none

def sampleEnv : DecodeEnv := ⟨sampleAtobJson⟩

/-- A structurally valid access token whose `exp` (2000) is in the past at
the times used below. -/
def expiredAccessTok : String := "head.expPayload.sig"

/-- A structurally valid access token with a far-future `exp`. -/
def freshAccessTok : String := "head.freshPayload.sig"

/-- A decodable token missing `userId`, `email` and `iat` but carrying a
far-future `exp`. -/
def noClaimsTok : String := "head.noClaimsPayload.sig"

/-- A structurally valid (decodable) refresh token. -/
def sampleRefreshTok : String := "head.rtPayload.sig"

/-- An access token expiring exactly 301 s after `nowSec = 1000`. -/
def boundary301Tok : String := "head.b301Payload.sig"

/-! ## Token store lemmas -/

lemma validateToken_decode_some {env : DecodeEnv} {nowSec : Int} {token : String}
    {p : TokenPayload} (h : decodeJWTPayload env token = some p) :
    validateToken env nowSec token =
      ⟨true, isTokenExpired env nowSec token, some p,
        if isTokenExpired env nowSec token then some "Token expire" else none⟩ := by
  simp [validateToken, isTokenValid, h]

lemma isTokenExpired_eq {env : DecodeEnv} {nowSec : Int} {token : String}
    {p : TokenPayload} {e : Int} (h : decodeJWTPayload env token = some p)
    (he : p.exp = some e) (hne : e ≠ 0) :
    isTokenExpired env nowSec token = decide (e < nowSec) := by
  simp [isTokenExpired, h, he, hne]

lemma getAccessToken_missing {env : DecodeEnv} {nowSec : Int} {st : Storage}
    (ha : st.access = none) :
    getAccessToken env nowSec st = (.error accessTokenNotFoundError, st) := by
  simp [getAccessToken, ha]

lemma getAccessToken_okFlag {env : DecodeEnv} {nowSec : Int} {st : Storage}
    {token : String} {p : TokenPayload} (ha : st.access = some token)
    (h : decodeJWTPayload env token = some p)
    (hexp : isTokenExpired env nowSec token = false) :
    getAccessToken env nowSec st = (.ok token, st) := by
  simp [getAccessToken, ha, validateToken_decode_some h, hexp]

lemma getAccessToken_expiredFlag {env : DecodeEnv} {nowSec : Int} {st : Storage}
    {token : String} {p : TokenPayload} (ha : st.access = some token)
    (h : decodeJWTPayload env token = some p)
    (hexp : isTokenExpired env nowSec token = true) :
    getAccessToken env nowSec st = (.error accessTokenExpiredError, ⟨none, none⟩) := by
  simp [getAccessToken, ha, validateToken_decode_some h, hexp, clearTokens]

lemma getAccessToken_valid {env : DecodeEnv} {nowSec : Int} {st : Storage}
    {token : String} {p : TokenPayload} {e : Int} (ha : st.access = some token)
    (h : decodeJWTPayload env token = some p) (he : p.exp = some e) (hne : e ≠ 0)
    (hfut : ¬ e < nowSec) :
    getAccessToken env nowSec st = (.ok token, st) :=
  getAccessToken_okFlag ha h (by simp [isTokenExpired_eq h he hne, hfut])

lemma getAccessToken_expired {env : DecodeEnv} {nowSec : Int} {st : Storage}
    {token : String} {p : TokenPayload} {e : Int} (ha : st.access = some token)
    (h : decodeJWTPayload env token = some p) (he : p.exp = some e) (hne : e ≠ 0)
    (hpast : e < nowSec) :
    getAccessToken env nowSec st = (.error accessTokenExpiredError, ⟨none, none⟩) :=
  getAccessToken_expiredFlag ha h (by simp [isTokenExpired_eq h he hne, hpast])

lemma getAccessToken_invalid {env : DecodeEnv} {nowSec : Int} {st : Storage}
    {token : String} (ha : st.access = some token)
    (h : decodeJWTPayload env token = none) :
    getAccessToken env nowSec st = (.error accessTokenInvalidFormatError, ⟨none, none⟩) := by
  simp [getAccessToken, ha, validateToken, isTokenValid, h, clearTokens,
    accessTokenInvalidFormatError]

lemma shouldRefreshToken_empty (env : DecodeEnv) (nowSec : Int) :
    shouldRefreshToken env nowSec ⟨none, none⟩ = (false, ⟨none, none⟩) := rfl

/-- After any failed `getAccessToken`, `shouldRefreshToken` on the resulting
storage is `false`: a missing token stays missing, and an invalid or expired
token has just been purged together with the refresh token. -/
lemma shouldRefresh_after_error {env : DecodeEnv} {nowSec : Int} {st : Storage}
    {e : AppError} {st2 : Storage}
    (h : getAccessToken env nowSec st = (.error e, st2)) :
    (shouldRefreshToken env nowSec st2).1 = false := by
  cases ha : st.access with
  | none =>
    rw [getAccessToken_missing ha] at h
    injection h with h1 h2
    subst h2
    simp [shouldRefreshToken, getAccessToken_missing ha]
  | some token =>
    cases hd : decodeJWTPayload env token with
    | none =>
      rw [getAccessToken_invalid ha hd] at h
      injection h with h1 h2
      subst h2
      simp [shouldRefreshToken_empty]
    | some p =>
      cases hexp : isTokenExpired env nowSec token with
      | true =>
        rw [getAccessToken_expiredFlag ha hd hexp] at h
        injection h with h1 h2
        subst h2
        simp [shouldRefreshToken_empty]
      | false =>
        rw [getAccessToken_okFlag ha hd hexp] at h
        exact absurd (congrArg Prod.fst h) (by simp)

/-! ## `getValidToken` never refreshes -/

lemma getValidTokenStep2_no_refresh (env : DecodeEnv) (nowMs : Int)
    (net : NetResult TokenRespData) (st1 : AuthState) :
    (getValidTokenStep2 env nowMs net st1).refreshCalls = 0 := by
  rcases h : getAccessToken env (msToSec nowMs) st1.store with ⟨r, s⟩
  cases r with
  | ok t => simp [getValidTokenStep2, h]
  | error e =>
    have hsr := shouldRefresh_after_error h
    rcases h2 : shouldRefreshToken env (msToSec nowMs) s with ⟨b, s3⟩
    rw [h2] at hsr
    simp only at hsr
    subst hsr
    simp [getValidTokenStep2, h, h2]

lemma getValidToken_no_refresh (env : DecodeEnv) (nowMs : Int)
    (net : NetResult TokenRespData) (st0 : AuthState) :
    (getValidToken env nowMs net st0).refreshCalls = 0 := by
  unfold getValidToken
  by_cases hc : nowMs - st0.lastTokenCheck < TOKEN_CHECK_INTERVAL
  · simp only [hc, if_true]
    rcases h : getAccessToken env (msToSec nowMs) st0.store with ⟨r, s⟩
    cases r with
    | ok t => simp [h]
    | error e => simp [h, getValidTokenStep2_no_refresh]
  · simp only [hc, if_false]
    exact getValidTokenStep2_no_refresh env nowMs net st0

/-! ## Claim C1 -/

/-- C1: the claim says that a `getValidToken()` call finding the stored
access token invalid or expired (with `shouldRefresh()` conditions holding)
performs exactly one `refreshToken()` attempt and returns its result, and
that N simultaneous such calls resolve with the refreshed token.  The code
cannot do this: a failed `getAccessToken()` either found no token or has
just purged both tokens, so the `shouldRefreshToken()` guard of step 3
re-reads the store and always returns `false`, making the refresh branch
unreachable.  First conjunct: no execution of `getValidToken` ever invokes
`refreshToken` (zero refresh network calls, for every environment, clock,
refresh-endpoint behaviour and starting state).  Remaining conjuncts
evaluate the failing input: an expired stored token, a valid stored refresh
token and a refresh endpoint that would return a fresh valid pair still
yield `authentication_required` with zero refresh attempts, where the claim
demands one refresh whose new access token is returned. -/
theorem C1_getValidToken_never_refreshes :
    (∀ (env : DecodeEnv) (nowMs : Int) (net : NetResult TokenRespData) (st : AuthState),
       (getValidToken env nowMs net st).refreshCalls = 0) ∧
    errKind (getValidToken sampleEnv 2500000
        (NetResult.success (some ⟨some freshAccessTok, some sampleRefreshTok⟩))
        ⟨⟨some expiredAccessTok, some sampleRefreshTok⟩, false, 0⟩).result
      = some "authentication_required" ∧
    (getValidToken sampleEnv 2500000
        (NetResult.success (some ⟨some freshAccessTok, some sampleRefreshTok⟩))
        ⟨⟨some expiredAccessTok, some sampleRefreshTok⟩, false, 0⟩).refreshCalls = 0 :=
  ⟨getValidToken_no_refresh, rfl, rfl⟩

/-! ## Claim C6 -/

/-- C6: for every well-formed stored access token (decodable, truthy `exp`)
with `exp` in the future, `getAccessToken()` returns the same stored token
string and leaves storage unchanged; with `exp` in the past it fails with
the expired error (`access_token_expired`, the spec's `AccessTokenExpired`)
and purges both tokens first, so that a subsequent `getAccessToken()` fails
with the missing error (`access_token_not_found`, the spec's
`AccessTokenMissing`); a structurally invalid (undecodable) stored token is
likewise purged before failing. -/
theorem C6_getAccessToken_expiry_behavior :
    (∀ (env : DecodeEnv) (nowSec : Int) (st : Storage) (token : String)
       (p : TokenPayload) (e : Int),
       st.access = some token → decodeJWTPayload env token = some p →
       p.exp = some e → e ≠ 0 → nowSec < e →
       getAccessToken env nowSec st = (.ok token, st)) ∧
    (∀ (env : DecodeEnv) (nowSec : Int) (st : Storage) (token : String)
       (p : TokenPayload) (e : Int),
       st.access = some token → decodeJWTPayload env token = some p →
       p.exp = some e → e ≠ 0 → e < nowSec →
       getAccessToken env nowSec st = (.error accessTokenExpiredError, ⟨none, none⟩) ∧
       getAccessToken env nowSec ⟨none, none⟩ =
         (.error accessTokenNotFoundError, ⟨none, none⟩)) ∧
    (∀ (env : DecodeEnv) (nowSec : Int) (st : Storage) (token : String),
       st.access = some token → decodeJWTPayload env token = none →
       getAccessToken env nowSec st = (.error accessTokenInvalidFormatError, ⟨none, none⟩)) := by
  refine ⟨?_, ?_, ?_⟩
  · intro env nowSec st token p e ha h he hne hfut
    exact getAccessToken_valid ha h he hne (by omega)
  · intro env nowSec st token p e ha h he hne hpast
    exact ⟨getAccessToken_expired ha h he hne hpast, getAccessToken_missing rfl⟩
  · intro env nowSec st token ha h
    exact getAccessToken_invalid ha h

/-- Witness for C6 at the sample environment: the fresh token is returned
unchanged at `nowSec = 2500`; the expired token (exp 2000) fails expired and
is purged, and the follow-up read fails missing. -/
theorem C6_witness :
    getAccessToken sampleEnv 2500 ⟨some freshAccessTok, some sampleRefreshTok⟩
        = (.ok freshAccessTok, ⟨some freshAccessTok, some sampleRefreshTok⟩) ∧
    getAccessToken sampleEnv 2500 ⟨some expiredAccessTok, some sampleRefreshTok⟩
        = (.error accessTokenExpiredError, ⟨none, none⟩) ∧
    getAccessToken sampleEnv 2500 ⟨none, none⟩
        = (.error accessTokenNotFoundError, ⟨none, none⟩) :=
  ⟨C6_getAccessToken_expiry_behavior.1 sampleEnv 2500 _ freshAccessTok
      ⟨some "user-1", some "user@example.com", some 1000, some 999999999⟩ 999999999
      rfl rfl rfl (by decide) (by decide),
    (C6_getAccessToken_expiry_behavior.2.1 sampleEnv 2500 _ expiredAccessTok
      ⟨some "user-1", some "user@example.com", some 1000, some 2000⟩ 2000
      rfl rfl rfl (by decide) (by decide)).1,
    (C6_getAccessToken_expiry_behavior.2.1 sampleEnv 2500
      ⟨some expiredAccessTok, some sampleRefreshTok⟩ expiredAccessTok
      ⟨some "user-1", some "user@example.com", some 1000, some 2000⟩ 2000
      rfl rfl rfl (by decide) (by decide)).2⟩

/-! ## Claim C7 -/

lemma shouldRefresh_iff (env : DecodeEnv) (nowSec : Int) (st : Storage) :
    (shouldRefreshToken env nowSec st).1 = true ↔
      ∃ token, (getAccessToken env nowSec st).1 = .ok token ∧
        0 < getTokenTimeRemaining env nowSec token ∧
        getTokenTimeRemaining env nowSec token ≤ 300 := by
  rcases h : getAccessToken env nowSec st with ⟨r, s⟩
  cases r with
  | error e => simp [shouldRefreshToken, h]
  | ok t =>
    simp only [shouldRefreshToken, h]
    constructor
    · intro hb
      simp only [Bool.and_eq_true, decide_eq_true_eq, REFRESH_BUFFER_SECONDS] at hb
      exact ⟨t, rfl, hb.2, by omega⟩
    · rintro ⟨token, htok, h1, h2⟩
      obtain rfl : t = token := by simpa using htok
      simp only [Bool.and_eq_true, decide_eq_true_eq, REFRESH_BUFFER_SECONDS]
      omega

lemma getTokenTimeRemaining_nonneg (env : DecodeEnv) (nowSec : Int) (token : String) :
    0 ≤ getTokenTimeRemaining env nowSec token := by
  unfold getTokenTimeRemaining
  rcases decodeJWTPayload env token with _ | p
  · simp
  · obtain ⟨u, em, ia, ex⟩ := p
    rcases ex with _ | e
    · simp
    · by_cases he : e = 0 <;> simp [he, le_max_left]

/-- C7: `shouldRefresh()` is true iff a valid, non-expired access token
exists (`getAccessToken` succeeds) whose remaining lifetime `r` satisfies
`0 < r ≤ 300`; in particular it is false when the remaining lifetime is `0`
and false when it is `301`, and the remaining lifetime is always clamped to
be nonnegative. -/
theorem C7_shouldRefresh_window :
    (∀ (env : DecodeEnv) (nowSec : Int) (st : Storage),
       (shouldRefreshToken env nowSec st).1 = true ↔
         ∃ token, (getAccessToken env nowSec st).1 = .ok token ∧
           0 < getTokenTimeRemaining env nowSec token ∧
           getTokenTimeRemaining env nowSec token ≤ 300) ∧
    (∀ (env : DecodeEnv) (nowSec : Int) (st : Storage) (token : String),
       (getAccessToken env nowSec st).1 = .ok token →
       getTokenTimeRemaining env nowSec token = 0 →
       (shouldRefreshToken env nowSec st).1 = false) ∧
    (∀ (env : DecodeEnv) (nowSec : Int) (st : Storage) (token : String),
       (getAccessToken env nowSec st).1 = .ok token →
       getTokenTimeRemaining env nowSec token = 301 →
       (shouldRefreshToken env nowSec st).1 = false) ∧
    (∀ (env : DecodeEnv) (nowSec : Int) (token : String),
       0 ≤ getTokenTimeRemaining env nowSec token) := by
  refine ⟨shouldRefresh_iff, ?_, ?_, getTokenTimeRemaining_nonneg⟩
  · intro env nowSec st token htok hrem
    cases hb : (shouldRefreshToken env nowSec st).1 with
    | false => rfl
    | true =>
      obtain ⟨tok2, htok2, h1, h2⟩ := (shouldRefresh_iff env nowSec st).mp hb
      obtain rfl : token = tok2 := by rw [htok] at htok2; simpa using htok2
      omega
  · intro env nowSec st token htok hrem
    cases hb : (shouldRefreshToken env nowSec st).1 with
    | false => rfl
    | true =>
      obtain ⟨tok2, htok2, h1, h2⟩ := (shouldRefresh_iff env nowSec st).mp hb
      obtain rfl : token = tok2 := by rw [htok] at htok2; simpa using htok2
      omega

/-- Witness for C7 at the boundary token (exp 1301): remaining lifetime 301
at `nowSec = 1000` gives `false`, remaining lifetime 0 at `nowSec = 1301`
gives `false`; the nonnegativity part applied at the expired token. -/
theorem C7_witness :
    (shouldRefreshToken sampleEnv 1000 ⟨some boundary301Tok, none⟩).1 = false ∧
    (shouldRefreshToken sampleEnv 1301 ⟨some boundary301Tok, none⟩).1 = false ∧
    0 ≤ getTokenTimeRemaining sampleEnv 2500 expiredAccessTok :=
  ⟨C7_shouldRefresh_window.2.2.1 sampleEnv 1000 ⟨some boundary301Tok, none⟩
      boundary301Tok rfl rfl,
    C7_shouldRefresh_window.2.1 sampleEnv 1301 ⟨some boundary301Tok, none⟩
      boundary301Tok rfl rfl,
    C7_shouldRefresh_window.2.2.2 sampleEnv 2500 expiredAccessTok⟩

/-! ## Claim C8 -/

lemma isTokenExpired_of_falsy_exp {env : DecodeEnv} {nowSec : Int} {token : String}
    {p : TokenPayload} (h : decodeJWTPayload env token = some p)
    (hf : truthyInt p.exp = false) : isTokenExpired env nowSec token = true := by
  obtain ⟨u, em, ia, ex⟩ := p
  unfold isTokenExpired
  rw [h]
  dsimp only
  rcases ex with _ | e
  · rfl
  · have he0 : e = 0 := by simpa [truthyInt] using hf
    simp [he0]

/-- C8 counterexample: the token whose decoded claims carry only a far-future
`exp` (no subject identifier, email or issued-at) is accepted, not rejected:
`validateToken` marks it valid and `getAccessToken` returns it unchanged,
even though `getTokenPayload` (the claim-decoding operation) rejects it for
missing fields.  This refutes the claim that all three operations reject
such tokens. -/
theorem C8_counterexample :
    getAccessToken sampleEnv 100 ⟨some noClaimsTok, none⟩
        = (.ok noClaimsTok, ⟨some noClaimsTok, none⟩) ∧
    (validateToken sampleEnv 100 noClaimsTok).isValid = true ∧
    decodeJWTPayload sampleEnv noClaimsTok = some ⟨none, none, none, some 999999999⟩ ∧
    getTokenPayload sampleEnv noClaimsTok = .error tokenMissingFieldsError :=
  ⟨rfl, rfl, rfl, rfl⟩

/-- C8 amended: only `getTokenPayload` (the spec's `decodeClaims`) rejects a
decodable token whose `userId`, `email`, `exp` or `iat` field is falsy
(`token_missing_fields`, the spec's `MissingRequiredClaims`);
`validateToken` and `getAccessToken` check only decodability and expiry, so
they accept a decodable token missing `userId`, `email` or `iat` whenever
its `exp` is truthy and in the future; a token with a falsy `exp` is
rejected by `getAccessToken`, but as expired. -/
theorem C8_missing_claims_amended :
    (∀ (env : DecodeEnv) (token : String) (p : TokenPayload),
       decodeJWTPayload env token = some p →
       (truthyStr p.userId && truthyStr p.email && truthyInt p.exp && truthyInt p.iat)
         = false →
       getTokenPayload env token = .error tokenMissingFieldsError) ∧
    (∀ (env : DecodeEnv) (nowSec : Int) (st : Storage) (token : String)
       (p : TokenPayload) (e : Int),
       st.access = some token → decodeJWTPayload env token = some p →
       p.exp = some e → e ≠ 0 → ¬ e < nowSec →
       getAccessToken env nowSec st = (.ok token, st)) ∧
    (∀ (env : DecodeEnv) (nowSec : Int) (st : Storage) (token : String)
       (p : TokenPayload),
       st.access = some token → decodeJWTPayload env token = some p →
       truthyInt p.exp = false →
       getAccessToken env nowSec st = (.error accessTokenExpiredError, ⟨none, none⟩)) := by
  refine ⟨?_, ?_, ?_⟩
  · intro env token p h hcond
    simp [getTokenPayload, h, hcond]
  · intro env nowSec st token p e ha h he hne hfut
    exact getAccessToken_valid ha h he hne hfut
  · intro env nowSec st token p ha h hf
    exact getAccessToken_expiredFlag ha h (isTokenExpired_of_falsy_exp h hf)

/-- Witness for the amended C8: the claims-missing token is rejected by
`getTokenPayload` yet accepted by `getAccessToken`; the token with a falsy
`exp` is rejected as expired. -/
theorem C8_witness :
    getTokenPayload sampleEnv noClaimsTok = .error tokenMissingFieldsError ∧
    getAccessToken sampleEnv 100 ⟨some noClaimsTok, some sampleRefreshTok⟩
        = (.ok noClaimsTok, ⟨some noClaimsTok, some sampleRefreshTok⟩) ∧
    getAccessToken sampleEnv 100 ⟨some sampleRefreshTok, none⟩
        = (.error accessTokenExpiredError, ⟨none, none⟩) :=
  ⟨C8_missing_claims_amended.1 sampleEnv noClaimsTok
      ⟨none, none, none, some 999999999⟩ rfl (by decide),
    C8_missing_claims_amended.2.1 sampleEnv 100 _ noClaimsTok
      ⟨none, none, none, some 999999999⟩ 999999999 rfl rfl rfl (by decide) (by decide),
    C8_missing_claims_amended.2.2 sampleEnv 100 _ sampleRefreshTok
      ⟨none, none, none, none⟩ rfl rfl rfl⟩

/-! ## Claim C10 -/

/-- C10: `setTokens` validates only structural shape, not expiry: a
decodable access token whose truthy `exp` is already in the past is stored
(together with a structurally valid refresh token) with success, and only
the subsequent `getAccessToken()` rejects it — with the expired error,
purging both tokens, so that the read after that fails with the missing
error. -/
theorem C10_setTokens_ignores_expiry :
    ∀ (env : DecodeEnv) (nowSec : Int) (st : Storage) (access refresh : String)
      (p : TokenPayload) (e : Int),
      decodeJWTPayload env access = some p → p.exp = some e → e ≠ 0 → e < nowSec →
      isTokenValid env refresh = true →
      setTokens env nowSec access refresh st = (.ok true, ⟨some access, some refresh⟩) ∧
      getAccessToken env nowSec ⟨some access, some refresh⟩ =
        (.error accessTokenExpiredError, ⟨none, none⟩) ∧
      getAccessToken env nowSec ⟨none, none⟩ =
        (.error accessTokenNotFoundError, ⟨none, none⟩) := by
  intro env nowSec st access refresh p e h he hne hpast hrt
  refine ⟨?_, getAccessToken_expired rfl h he hne hpast, getAccessToken_missing rfl⟩
  simp [setTokens, validateToken_decode_some h, hrt]

/-- Witness for C10: the expired sample token (exp 2000) is stored at
`nowSec = 2500` and only the subsequent read rejects it. -/
theorem C10_witness :
    setTokens sampleEnv 2500 expiredAccessTok sampleRefreshTok ⟨none, none⟩
        = (.ok true, ⟨some expiredAccessTok, some sampleRefreshTok⟩) ∧
    getAccessToken sampleEnv 2500 ⟨some expiredAccessTok, some sampleRefreshTok⟩
        = (.error accessTokenExpiredError, ⟨none, none⟩) ∧
    getAccessToken sampleEnv 2500 ⟨none, none⟩
        = (.error accessTokenNotFoundError, ⟨none, none⟩) :=
  C10_setTokens_ignores_expiry sampleEnv 2500 ⟨none, none⟩ expiredAccessTok
    sampleRefreshTok ⟨some "user-1", some "user@example.com", some 1000, some 2000⟩ 2000
    rfl rfl (by decide) (by decide) rfl

/-! ## Claim C2 -/

/-- Every failing `refreshToken()` run that found a refresh token in storage
ends with both tokens cleared: the invalid-refresh-token fast path clears
inside `getRefreshToken`, and every later failure branch of `performRefresh`
calls `clearTokens`. -/
lemma refreshToken_failure_clears {env : DecodeEnv} {nowSec nowMs : Int}
    {net : NetResult TokenRespData} {st : AuthState} {rt : String}
    (hr : st.store.refresh = some rt)
    (hfail : isErr (refreshToken env nowSec nowMs net st).1 = true) :
    ((refreshToken env nowSec nowMs net st).2).store = ⟨none, none⟩ := by
  by_cases hv : isTokenValid env rt = false
  · have hg : getRefreshToken env st.store = (.error refreshTokenInvalidError, ⟨none, none⟩) := by
      simp [getRefreshToken, hr, hv, clearTokens]
    simp [refreshToken, performRefresh, hg]
  · have hv2 : isTokenValid env rt = true := by simpa using hv
    have hg : getRefreshToken env st.store = (.ok rt, st.store) := by
      simp [getRefreshToken, hr, hv2]
    cases net with
    | failure status =>
      by_cases h4 : status = some 401 <;>
        simp [refreshToken, performRefresh, hg, h4, clearTokens]
    | success data =>
      cases data with
      | none => simp [refreshToken, performRefresh, hg, clearTokens]
      | some d =>
        by_cases hta : truthyStr d.accessToken = false
        · simp [refreshToken, performRefresh, hg, hta, clearTokens]
        · rcases hset : setTokens env nowSec (d.accessToken.getD "")
              (if truthyStr d.refreshToken then d.refreshToken.getD "" else rt)
              st.store with ⟨sr, store3⟩
          cases sr with
          | error e2 => simp [refreshToken, performRefresh, hg, hta, hset, clearTokens]
          | ok b =>
            exfalso
            rw [show (refreshToken env nowSec nowMs (NetResult.success (some d)) st).1
                = .ok ⟨d.accessToken.getD "",
                    if truthyStr d.refreshToken then d.refreshToken.getD "" else rt⟩ from by
              simp [refreshToken, performRefresh, hg, hta, hset]] at hfail
            simp [isErr] at hfail

/-- C2 counterexample: with an access token still stored but the refresh
token absent, `refreshToken()` fails on the fail-fast
`refresh_token_not_found` path WITHOUT clearing storage — afterward the
access token is still present, contradicting the claim that every failure
outcome (including "refresh token absent") leaves both tokens cleared. -/
theorem C2_counterexample :
    isErr (refreshToken sampleEnv 100 100000 (NetResult.failure (some 401))
        ⟨⟨some freshAccessTok, none⟩, false, 0⟩).1 = true ∧
    ((refreshToken sampleEnv 100 100000 (NetResult.failure (some 401))
        ⟨⟨some freshAccessTok, none⟩, false, 0⟩).2).store.access = some freshAccessTok :=
  ⟨rfl, rfl⟩

/-- C2 amended: for every failure outcome of `refreshToken()` in which a
refresh token was present in storage (invalid stored refresh token, refresh
endpoint 401 or other error or timeout, malformed refresh response, storage
of the new pair rejected), both tokens are cleared afterward; the
refresh-token-absent path fails fast leaving storage untouched (a stored
access token survives that failure).
When the refresh endpoint returns 401, `refreshToken()` fails with the 401
refresh error (`refresh_expired`, the spec's `RefreshFailed(401)`) and both
tokens are absent from storage afterward. -/
theorem C2_refresh_failure_cleanup :
    (∀ (env : DecodeEnv) (nowSec nowMs : Int) (net : NetResult TokenRespData)
       (st : AuthState) (rt : String),
       st.store.refresh = some rt →
       isErr (refreshToken env nowSec nowMs net st).1 = true →
       ((refreshToken env nowSec nowMs net st).2).store = ⟨none, none⟩) ∧
    (∀ (env : DecodeEnv) (nowSec nowMs : Int) (st : AuthState) (rt : String),
       st.store.refresh = some rt → isTokenValid env rt = true →
       (refreshToken env nowSec nowMs (NetResult.failure (some 401)) st).1
           = .error refreshExpiredError ∧
       ((refreshToken env nowSec nowMs (NetResult.failure (some 401)) st).2).store
           = ⟨none, none⟩) := by
  constructor
  · intro env nowSec nowMs net st rt hr hfail
    exact refreshToken_failure_clears hr hfail
  · intro env nowSec nowMs st rt hr hv
    have hg : getRefreshToken env st.store = (.ok rt, st.store) := by
      simp [getRefreshToken, hr, hv]
    constructor
    · simp [refreshToken, performRefresh, hg]
    · refine refreshToken_failure_clears hr ?_
      simp [refreshToken, performRefresh, hg, isErr]

/-- Witness for C2: a 401 from the refresh endpoint with a structurally
valid stored refresh token yields the `refresh_expired` failure and an
empty store. -/
theorem C2_witness :
    (refreshToken sampleEnv 2500 2500000 (NetResult.failure (some 401))
        ⟨⟨some expiredAccessTok, some sampleRefreshTok⟩, false, 0⟩).1
      = .error refreshExpiredError ∧
    ((refreshToken sampleEnv 2500 2500000 (NetResult.failure (some 401))
        ⟨⟨some expiredAccessTok, some sampleRefreshTok⟩, false, 0⟩).2).store
      = ⟨none, none⟩ :=
  C2_refresh_failure_cleanup.2 sampleEnv 2500 2500000
    ⟨⟨some expiredAccessTok, some sampleRefreshTok⟩, false, 0⟩ sampleRefreshTok rfl rfl

/-! ## Claim C4 -/

/-- C4: every execution of `logout()` — whether the best-effort server-side
invalidation resolves or fails/times out, and from any starting state —
returns success and ends with both tokens cleared from storage, the refresh
lock reset to empty and `lastTokenCheck` zeroed, after which
`isAuthenticated()` is `false`. -/
theorem C4_logout_terminal_state :
    ∀ (env : DecodeEnv) (nowSec : Int) (net : LogoutNet) (st : AuthState),
      logout env net st = (.ok true, ⟨⟨none, none⟩, false, 0⟩) ∧
      (isAuthenticated env nowSec (logout env net st).2).1 = false := by
  intro env nowSec net st
  rcases hg : getRefreshToken env st.store with ⟨r, store2⟩
  have h1 : logout env net st = (.ok true, ⟨⟨none, none⟩, false, 0⟩) := by
    simp [logout, hg, clearTokens]
  refine ⟨h1, ?_⟩
  rw [h1]
  simp [isAuthenticated, @getAccessToken_missing env nowSec ⟨none, none⟩ rfl]

/-! ## Claim C9 -/

/-- C9 counterexample: the email `" user@example.com "` passes the format
check after trimming (and lower-casing), yet `login` rejects it locally with
`invalid_email_format` and zero network calls — because the code applies the
format check to the RAW email and trims/lower-cases only the transmitted
body.  This refutes the claim that the email is trimmed and lower-cased
before validation. -/
theorem C9_counterexample :
    errKind (login sampleEnv 100 100000 (NetResult.success none)
        " user@example.com " "secret1" ⟨⟨none, none⟩, false, 0⟩).result
      = some "invalid_email_format" ∧
    (login sampleEnv 100 100000 (NetResult.success none)
        " user@example.com " "secret1" ⟨⟨none, none⟩, false, 0⟩).netCalls = 0 ∧
    isValidEmail (jsToLower (jsTrim " user@example.com ")) = true ∧
    isValidEmail " user@example.com " = false :=
  ⟨rfl, rfl, rfl, rfl⟩

/-- C9 amended: `login` applies the email format check to the raw
(untrimmed, original-case) email; for every nonempty credential pair whose
raw email fails the check it fails with `invalid_email_format` and makes no
network call, and for every raw email passing the check exactly one network
call is made whose transmitted email is the trimmed, lower-cased form. -/
theorem C9_login_email_validation :
    (∀ (env : DecodeEnv) (nowSec nowMs : Int) (net : NetResult TokenRespData)
       (email password : String) (st : AuthState),
       email.toList.isEmpty = false → password.toList.isEmpty = false →
       isValidEmail email = false →
       login env nowSec nowMs net email password st
         = ⟨.error invalidEmailFormatError, st, 0, none⟩) ∧
    (∀ (env : DecodeEnv) (nowSec nowMs : Int) (net : NetResult TokenRespData)
       (email password : String) (st : AuthState),
       email.toList.isEmpty = false → password.toList.isEmpty = false →
       isValidEmail email = true →
       (login env nowSec nowMs net email password st).netCalls = 1 ∧
       (login env nowSec nowMs net email password st).sentEmail
         = some (jsToLower (jsTrim email))) := by
  constructor
  · intro env nowSec nowMs net email password st he hp hv
    have he2 : email.data ≠ [] := by simpa using he
    have hp2 : password.data ≠ [] := by simpa using hp
    simp [login, he2, hp2, hv]
  · intro env nowSec nowMs net email password st he hp hv
    have he2 : email.data ≠ [] := by simpa using he
    have hp2 : password.data ≠ [] := by simpa using hp
    unfold login
    rw [if_neg (by simp [he2, hp2])]
    rw [if_neg (by simp [hv])]
    cases net with
    | failure status =>
      by_cases h4 : status = some 401
      · simp [h4]
      · by_cases h9 : status = some 429 <;> simp [h4, h9]
    | success data =>
      cases data with
      | none => simp
      | some d =>
        by_cases hta : ((!truthyStr d.accessToken) || (!truthyStr d.refreshToken)) = true
        · simp [hta]
        · rcases hset : setTokens env nowSec (d.accessToken.getD "") (d.refreshToken.getD "")
              st.store with ⟨sr, store2⟩
          cases sr with
          | error e2 => simp [hta, hset]
          | ok b => simp [hta, hset]

/-- Witness for the amended C9: a raw email with an embedded leading space
is rejected with no network call; the same email already well-formed leads
to one network call transmitting its trimmed lower-cased form. -/
theorem C9_witness :
    login sampleEnv 2500 2500000 (NetResult.failure none) " user@example.com " "secret1"
        ⟨⟨none, none⟩, false, 0⟩
      = ⟨.error invalidEmailFormatError, ⟨⟨none, none⟩, false, 0⟩, 0, none⟩ ∧
    (login sampleEnv 2500 2500000 (NetResult.failure none) "User@Example.com" "secret1"
        ⟨⟨none, none⟩, false, 0⟩).netCalls = 1 ∧
    (login sampleEnv 2500 2500000 (NetResult.failure none) "User@Example.com" "secret1"
        ⟨⟨none, none⟩, false, 0⟩).sentEmail = some (jsToLower (jsTrim "User@Example.com")) :=
  ⟨C9_login_email_validation.1 sampleEnv 2500 2500000 (NetResult.failure none)
      " user@example.com " "secret1" ⟨⟨none, none⟩, false, 0⟩ rfl rfl rfl,
    (C9_login_email_validation.2 sampleEnv 2500 2500000 (NetResult.failure none)
      "User@Example.com" "secret1" ⟨⟨none, none⟩, false, 0⟩ rfl rfl rfl).1,
    (C9_login_email_validation.2 sampleEnv 2500 2500000 (NetResult.failure none)
      "User@Example.com" "secret1" ⟨⟨none, none⟩, false, 0⟩ rfl rfl rfl).2⟩

/-! ## Claim C5 -/

/-- C5: a 401 on a non-auth-endpoint request not yet retried, with no
refresh in flight and a successful refresh, triggers exactly one retry of
that request carrying the refreshed bearer token and marked `_retry`; a 401
on a request already marked `_retry` forces session teardown
(`handleAuthenticationFailure`: logout and redirect) with no further retry.
Consequently a request whose every attempt the server answers with 401 is
sent exactly twice — the original and one retry — before teardown; no third
attempt occurs. -/
theorem C5_401_retry_once_then_teardown :
    (∀ (url : String) (hdr : Option String) (toks : AuthTokens),
       isAuthRoute url = false →
       onResponseError (some 401) ⟨url, false, hdr⟩ false (.ok toks)
         = (.retryRequest ⟨url, true, some ("Bearer " ++ toks.accessToken)⟩, false)) ∧
    (∀ (cfg : ReqConfig) (isR : Bool) (ro : Except AppError AuthTokens),
       cfg.retry = true → isAuthRoute cfg.url = false →
       onResponseError (some 401) cfg isR ro = (.teardownReject, isR)) ∧
    (∀ (url : String) (hdr : Option String) (toks : AuthTokens) (fuel : Nat),
       isAuthRoute url = false →
       driveRequest (fuel + 2) ⟨url, false, hdr⟩ false (.ok toks) = (2, true)) := by
  refine ⟨?_, ?_, ?_⟩
  · intro url hdr toks hu
    simp [onResponseError, hu]
  · intro cfg isR ro hr hu
    simp [onResponseError, hr, hu]
  · intro url hdr toks fuel hu
    show driveRequest (fuel + 1 + 1) _ _ _ = _
    rw [driveRequest]
    simp only [onResponseError, hu]
    norm_num
    rw [driveRequest]
    simp [onResponseError, hu]

/-- Witness for C5 on the concrete URL `/api/users`: the first 401 yields
the single marked retry with the new bearer token, and driving the request
against an always-401 server sends exactly two attempts then tears the
session down. -/
theorem C5_witness :
    onResponseError (some 401) ⟨"/api/users", false, none⟩ false
        (.ok ⟨"newAcc", "newRef"⟩)
      = (.retryRequest ⟨"/api/users", true, some ("Bearer " ++ "newAcc")⟩, false) ∧
    driveRequest 2 ⟨"/api/users", false, none⟩ false (.ok ⟨"newAcc", "newRef"⟩)
      = (2, true) :=
  ⟨C5_401_retry_once_then_teardown.1 "/api/users" none ⟨"newAcc", "newRef"⟩ rfl,
    C5_401_retry_once_then_teardown.2.2 "/api/users" none ⟨"newAcc", "newRef"⟩ 0 rfl⟩

/-! ## Claim C3 -/

/-- One step preserves the lock invariant: the number of outstanding refresh
network calls is `1` exactly while a refresh is in flight, else `0`. -/
lemma stepRefresh_outstanding {st : RefreshSys}
    (h : st.outstanding = if st.inFlight then 1 else 0) (ev : RefreshEv) :
    (stepRefresh st ev).outstanding = if (stepRefresh st ev).inFlight then 1 else 0 := by
  cases ev with
  | arrive c =>
    by_cases hf : st.inFlight <;> simp [stepRefresh, hf, h] at h ⊢
  | complete o =>
    by_cases hf : st.inFlight <;> simp [stepRefresh, hf, h] at h ⊢

lemma runRefreshFrom_outstanding (evs : List RefreshEv) {st : RefreshSys}
    (h : st.outstanding = if st.inFlight then 1 else 0) :
    (runRefreshFrom st evs).outstanding
      = if (runRefreshFrom st evs).inFlight then 1 else 0 := by
  induction evs generalizing st with
  | nil => simpa [runRefreshFrom] using h
  | cons ev rest ih =>
    simp only [runRefreshFrom, List.foldl_cons] at ih ⊢
    exact ih (stepRefresh_outstanding h ev)

/-- Arrivals during an in-flight refresh only append to the FIFO queue. -/
lemma runRefreshFrom_arrivals (cs : List Nat) {st : RefreshSys}
    (h : st.inFlight = true) :
    runRefreshFrom st (cs.map RefreshEv.arrive) = { st with waiters := st.waiters ++ cs } := by
  induction cs generalizing st with
  | nil => simp [runRefreshFrom]
  | cons c rest ih =>
    simp only [List.map_cons, runRefreshFrom, List.foldl_cons]
    have hstep : stepRefresh st (RefreshEv.arrive c)
        = { st with waiters := st.waiters ++ [c] } := by
      simp [stepRefresh, h]
    rw [hstep]
    have hin : ({ st with waiters := st.waiters ++ [c] } : RefreshSys).inFlight = true := h
    have h2 := ih hin
    simp only [runRefreshFrom] at h2
    rw [h2]
    simp [List.append_assoc]

/-- A burst of callers followed by the completion of the one network call:
one refresh was started, and every caller is resolved, in FIFO order, with
the one outcome. -/
lemma runRefresh_burst (callers : List Nat) (o : RefreshOutcome) (hne : callers ≠ []) :
    runRefresh (callers.map RefreshEv.arrive ++ [RefreshEv.complete o])
      = ⟨false, [], 0, 1, callers.map (fun c => (c, o))⟩ := by
  cases callers with
  | nil => exact absurd rfl hne
  | cons c rest =>
    have h1 : runRefreshFrom initRefreshSys ((c :: rest).map RefreshEv.arrive)
        = ⟨true, c :: rest, 1, 1, []⟩ := by
      simp only [List.map_cons, runRefreshFrom, List.foldl_cons]
      have hstep : stepRefresh initRefreshSys (RefreshEv.arrive c)
          = ⟨true, [c], 1, 1, []⟩ := rfl
      rw [hstep]
      have h2 := @runRefreshFrom_arrivals rest ⟨true, [c], 1, 1, []⟩ rfl
      simp only [runRefreshFrom] at h2
      rw [h2]
      simp
    show runRefreshFrom initRefreshSys _ = _
    rw [runRefreshFrom, List.foldl_append]
    simp only [runRefreshFrom] at h1
    rw [h1]
    simp [stepRefresh]

/-- C3: refresh is strictly single-flight.  First conjunct: along every
event sequence (callers arriving, in-flight call completing) at most one
refresh network call is outstanding at any time.  Second conjunct: any
nonempty burst of callers arriving before the in-flight refresh settles
starts exactly one network call, and every one of them — the initiator and
every queued caller and 401 retry — is resolved from that one outcome, in
FIFO enqueue order. -/
theorem C3_single_flight :
    (∀ evs : List RefreshEv, (runRefresh evs).outstanding ≤ 1) ∧
    (∀ (callers : List Nat) (o : RefreshOutcome), callers ≠ [] →
       (runRefresh (callers.map RefreshEv.arrive
           ++ [RefreshEv.complete o])).started = 1 ∧
       (runRefresh (callers.map RefreshEv.arrive
           ++ [RefreshEv.complete o])).resolved = callers.map (fun c => (c, o))) := by
  constructor
  · intro evs
    have h := @runRefreshFrom_outstanding evs initRefreshSys rfl
    show (runRefreshFrom initRefreshSys evs).outstanding ≤ 1
    rw [h]
    split <;> omega
  · intro callers o hne
    rw [runRefresh_burst callers o hne]
    exact ⟨rfl, rfl⟩

/-- Witness for C3: three simultaneous callers and one completion — one
network call started, all three resolved with the same successful outcome
in arrival order. -/
theorem C3_witness :
    (runRefresh (([0, 1, 2] : List Nat).map RefreshEv.arrive
        ++ [RefreshEv.complete (RefreshOutcome.succeeded ⟨"newAcc2", "newRef2"⟩)])).started
      = 1 ∧
    (runRefresh (([0, 1, 2] : List Nat).map RefreshEv.arrive
        ++ [RefreshEv.complete (RefreshOutcome.succeeded ⟨"newAcc2", "newRef2"⟩)])).resolved
      = ([0, 1, 2] : List Nat).map
          (fun c => (c, RefreshOutcome.succeeded ⟨"newAcc2", "newRef2"⟩)) :=
  C3_single_flight.2 [0, 1, 2] (RefreshOutcome.succeeded ⟨"newAcc2", "newRef2"⟩)
    (by decide)

end AuthSpec
